import Mathlib

/-!
Verification of the TLSSocket repository (a TLS wrapper around a nonblocking
TCP socket, driven by the mbed TLS engine) against its specification.

The repository ships only the class header src/TLSSocket.h: the declarations,
default arguments and the constructor initializer list are embedded from that
header directly.  The bodies of the member functions are not part of the
repository source, so their behaviour is modelled from the specification;
every such definition carries a doc comment starting with
"Modelled from the spec:" naming the missing body.

Conventions of the embedding:
- C pointers to PEM text become Option String (NULL = none).
- Integer status codes (nsapi_error_t, mbed TLS return values) become Int.
- The external crypto engine (mbed TLS) and the external transport are
  collaborators: their outcomes are inputs to the modelled functions
  (a PEM-parse oracle, an engine read/write outcome, a stream of
  handshake-step outcomes).
-/

namespace TLSSocketModel

/-- Transport would-block status of the nsapi stream socket layer
(NSAPI_ERROR_WOULD_BLOCK). -/
def NSAPI_ERROR_WOULD_BLOCK : Int := -3001

/-- Engine sentinel: the handshake or record layer needs more transport input
(MBEDTLS_ERR_SSL_WANT_READ). -/
def MBEDTLS_ERR_SSL_WANT_READ : Int := -26880

/-- Engine sentinel: the handshake or record layer needs to flush transport
output (MBEDTLS_ERR_SSL_WANT_WRITE). -/
def MBEDTLS_ERR_SSL_WANT_WRITE : Int := -26752

/-- Engine hard-error sentinel for a failed receive at the transport bridge
(MBEDTLS_ERR_NET_RECV_FAILED). -/
def MBEDTLS_ERR_NET_RECV_FAILED : Int := -76

/-- Engine hard-error sentinel for a failed send at the transport bridge
(MBEDTLS_ERR_NET_SEND_FAILED). -/
def MBEDTLS_ERR_NET_SEND_FAILED : Int := -78

/-- Modelled from the spec: the fixed negative code with which connect fails
when no trust store was configured and none was supplied inline (fail-closed,
spec sections 4.3, 8). -/
def ERR_NO_TRUST_STORE : Int := -3003

/-- Modelled from the spec: the fixed negative code with which connect fails
when the stored root CA PEM does not parse (spec sections 4.2, 8). -/
def ERR_CA_PARSE : Int := -9984

/-- Modelled from the spec: the fixed negative code with which connect fails
when the stored client certificate PEM does not parse. -/
def ERR_CLI_PARSE : Int := -9985

/-- Modelled from the spec: the fixed negative code with which connect fails
when the stored client private key PEM does not parse. -/
def ERR_PK_PARSE : Int := -15616

/-- Modelled from the spec: the body of the receive adapter callback ssl_recv
(declared at src/TLSSocket.h line 157) is not under src/.  Per spec section
4.6 it forwards the engine's read request to the transport recv and translates
the transport status into the exact engine sentinels: a nonnegative byte count
passes through unchanged, the transport would-block status becomes the
engine's want-read sentinel, and any other negative status becomes the
engine's hard receive-error sentinel.  The argument is the status returned by
the transport recv for this request. -/
def ssl_recv (transportStatus : Int) : Int :=
  if transportStatus = NSAPI_ERROR_WOULD_BLOCK then MBEDTLS_ERR_SSL_WANT_READ
  else if transportStatus < 0 then MBEDTLS_ERR_NET_RECV_FAILED
  else transportStatus

/-- Modelled from the spec: the body of the send adapter callback ssl_send
(declared at src/TLSSocket.h line 162) is not under src/.  Per spec section
4.6 it forwards the engine's write request to the transport send and
translates the transport status: a nonnegative byte count passes through
unchanged, the transport would-block status becomes the engine's want-write
sentinel, and any other negative status becomes the engine's hard
send-error sentinel. -/
def ssl_send (transportStatus : Int) : Int :=
  if transportStatus = NSAPI_ERROR_WOULD_BLOCK then MBEDTLS_ERR_SSL_WANT_WRITE
  else if transportStatus < 0 then MBEDTLS_ERR_NET_SEND_FAILED
  else transportStatus

/-- Outcome of one engine encrypted-read operation (the external mbed TLS
call mbedtls_ssl_read that recv delegates to): some decrypted bytes were
delivered, the peer sent its orderly close notification, the operation would
block at the transport, or it failed with an engine error code. -/
inductive EngineReadResult where
  | delivered (n : Nat)
  | peerShutdown
  | wouldBlock
  | failed (e : Int)
deriving DecidableEq

/-- Well-formedness of an engine read outcome: a delivery carries at least one
byte and an engine failure code is negative. -/
def EngineReadResult.wf : EngineReadResult → Prop
  | .delivered n => 0 < n
  | .failed e => e < 0
  | _ => True

/-- Modelled from the spec: the body of TLSSocket::recv (declared at
src/TLSSocket.h line 130) is not under src/.  Per spec section 4.5 and the
header doc comment, recv delegates to the engine's encrypted-read operation
and surfaces: the delivered byte count, exactly 0 for the engine's orderly
peer-shutdown notification, the engine's negative would-block code, and the
engine's negative error code otherwise. -/
def recv (r : EngineReadResult) : Int :=
  match r with
  | .delivered n => (n : Int)
  | .peerShutdown => 0
  | .wouldBlock => MBEDTLS_ERR_SSL_WANT_READ
  | .failed e => e

/-- Outcome of one engine encrypted-write operation (the external mbed TLS
call mbedtls_ssl_write that send delegates to): some application bytes were
accepted (possibly fewer than requested), the operation would block at the
transport, or it failed with an engine error code. -/
inductive EngineWriteResult where
  | accepted (n : Nat)
  | wouldBlock
  | failed (e : Int)
deriving DecidableEq

/-- Modelled from the spec: the body of TLSSocket::send (declared at
src/TLSSocket.h line 116) is not under src/.  Per spec sections 4.4 and 5,
send performs a single delegation to the engine's encrypted-write operation —
no internal retry loop — and surfaces the engine's outcome verbatim: the
accepted byte count (a partial count when smaller than the requested size),
the engine's would-block code, or the negative error code.  The requested
size is carried to state partiality; the surfaced outcome does not depend
on it. -/
def send (size : Nat) (r : EngineWriteResult) : Int :=
  match r with
  | .accepted n => (n : Int)
  | .wouldBlock => MBEDTLS_ERR_SSL_WANT_WRITE
  | .failed e => e

/-- C1: every transport status is translated by the adapter callbacks
ssl_recv and ssl_send to exactly the sentinel the engine expects: a positive
byte count maps to that byte count, the transport would-block status maps to
the engine's would-block sentinel (which differs from the hard-error
sentinel), and any other negative transport status maps to the engine's
hard-error sentinel. -/
theorem ssl_io_callbacks_translate (t : Int) :
    (0 < t → ssl_recv t = t ∧ ssl_send t = t) ∧
    (ssl_recv NSAPI_ERROR_WOULD_BLOCK = MBEDTLS_ERR_SSL_WANT_READ ∧
      ssl_send NSAPI_ERROR_WOULD_BLOCK = MBEDTLS_ERR_SSL_WANT_WRITE ∧
      MBEDTLS_ERR_SSL_WANT_READ ≠ MBEDTLS_ERR_NET_RECV_FAILED ∧
      MBEDTLS_ERR_SSL_WANT_WRITE ≠ MBEDTLS_ERR_NET_SEND_FAILED) ∧
    (t < 0 → t ≠ NSAPI_ERROR_WOULD_BLOCK →
      ssl_recv t = MBEDTLS_ERR_NET_RECV_FAILED ∧
      ssl_send t = MBEDTLS_ERR_NET_SEND_FAILED) := by
  refine ⟨?_, ⟨by decide, by decide, by decide, by decide⟩, ?_⟩
  · intro ht
    constructor
    · unfold ssl_recv NSAPI_ERROR_WOULD_BLOCK
      split_ifs with h1 h2 <;> omega
    · unfold ssl_send NSAPI_ERROR_WOULD_BLOCK
      split_ifs with h1 h2 <;> omega
  · intro ht hne
    constructor
    · unfold ssl_recv
      rw [if_neg hne, if_pos ht]
    · unfold ssl_send
      rw [if_neg hne, if_pos ht]

/-- Witness for C1: the translation evaluated at a positive byte count, at
the transport would-block status, and at a generic negative transport
error. -/
theorem ssl_io_callbacks_translate_witness :
    (ssl_recv 7 = 7 ∧ ssl_send 7 = 7) ∧
    (ssl_recv NSAPI_ERROR_WOULD_BLOCK = MBEDTLS_ERR_SSL_WANT_READ ∧
      ssl_send NSAPI_ERROR_WOULD_BLOCK = MBEDTLS_ERR_SSL_WANT_WRITE) ∧
    (ssl_recv (-5) = MBEDTLS_ERR_NET_RECV_FAILED ∧
      ssl_send (-5) = MBEDTLS_ERR_NET_SEND_FAILED) :=
  ⟨(ssl_io_callbacks_translate 7).1 (by decide),
    ⟨((ssl_io_callbacks_translate 7).2.1).1, ((ssl_io_callbacks_translate 7).2.1).2.1⟩,
    (ssl_io_callbacks_translate (-5)).2.2 (by decide) (by decide)⟩

/-- C2: on a well-formed engine read outcome, recv returns 0 exactly when the
peer performed an orderly shutdown; a would-block condition or a genuine
engine error yields a negative return, and a delivery yields a positive
return, so 0 is never returned for an error. -/
theorem recv_zero_iff_peer_shutdown (r : EngineReadResult) (h : r.wf) :
    (recv r = 0 ↔ r = EngineReadResult.peerShutdown) ∧
    ((r = EngineReadResult.wouldBlock ∨ ∃ e, r = EngineReadResult.failed e) →
      recv r < 0) ∧
    (∀ n, r = EngineReadResult.delivered n → 0 < recv r) := by
  cases r with
  | delivered n =>
    refine ⟨?_, ?_, ?_⟩
    · simp only [recv, EngineReadResult.wf] at h ⊢
      constructor
      · intro h0; omega
      · intro hc; exact absurd hc (by simp)
    · rintro (hc | ⟨e, hc⟩) <;> simp at hc
    · intro m hm
      simp only [recv, EngineReadResult.wf] at h ⊢
      omega
  | peerShutdown =>
    refine ⟨by simp [recv], ?_, by intro n hn; simp at hn⟩
    rintro (hc | ⟨e, hc⟩) <;> simp at hc
  | wouldBlock =>
    refine ⟨by simp [recv]; decide, ?_, by intro n hn; simp at hn⟩
    intro hc
    simp only [recv]
    decide
  | failed e =>
    simp only [EngineReadResult.wf] at h
    refine ⟨by simp [recv]; omega, ?_, by intro n hn; simp at hn⟩
    intro hc
    simp only [recv]
    exact h

/-- Witness for C2: recv evaluated on the orderly peer-shutdown outcome and
on a concrete engine failure. -/
theorem recv_zero_iff_peer_shutdown_witness :
    (recv EngineReadResult.peerShutdown = 0 ↔
      EngineReadResult.peerShutdown = EngineReadResult.peerShutdown) ∧
    ((EngineReadResult.peerShutdown = EngineReadResult.wouldBlock ∨
        ∃ e, EngineReadResult.peerShutdown = EngineReadResult.failed e) →
      recv EngineReadResult.peerShutdown < 0) ∧
    (∀ n, EngineReadResult.peerShutdown = EngineReadResult.delivered n →
      0 < recv EngineReadResult.peerShutdown) :=
  recv_zero_iff_peer_shutdown EngineReadResult.peerShutdown trivial

/-- C7: send surfaces the single engine write outcome verbatim, with no
internal retry: a partial accepted count is returned accurately, the engine's
would-block code is surfaced (negative, for the caller to retry), and a
negative engine error code is returned unchanged. -/
theorem send_no_internal_retry (size n : Nat) (e : Int)
    (hn : n ≤ size) (he : e < 0) :
    send size (EngineWriteResult.accepted n) = (n : Int) ∧
    send size EngineWriteResult.wouldBlock = MBEDTLS_ERR_SSL_WANT_WRITE ∧
    MBEDTLS_ERR_SSL_WANT_WRITE < 0 ∧
    send size (EngineWriteResult.failed e) = e ∧
    send size (EngineWriteResult.failed e) < 0 := by
  refine ⟨rfl, rfl, by decide, rfl, ?_⟩
  simpa [send] using he

/-- Witness for C7: send evaluated on a partial acceptance of 4 of 10
requested bytes, on would-block, and on a concrete engine error. -/
theorem send_no_internal_retry_witness :
    send 10 (EngineWriteResult.accepted 4) = (4 : Int) ∧
    send 10 EngineWriteResult.wouldBlock = MBEDTLS_ERR_SSL_WANT_WRITE ∧
    MBEDTLS_ERR_SSL_WANT_WRITE < 0 ∧
    send 10 (EngineWriteResult.failed (-80)) = (-80 : Int) ∧
    send 10 (EngineWriteResult.failed (-80)) < 0 :=
  send_no_internal_retry 10 4 (-80) (by decide) (by decide)

/-- Outcome of one invocation of the engine's single-step handshake-advance
operation (the external mbed TLS call mbedtls_ssl_handshake that connect
loops on): the handshake completed, it needs more transport input, it needs
to flush transport output, or it failed with a fatal protocol/verification
error code. -/
inductive HsStep where
  | done
  | wantRead
  | wantWrite
  | fatal (e : Int)
deriving DecidableEq

/-- Status code that a terminated handshake loop yields to connect: 0 for
completion, the engine code otherwise. -/
def hsResultCode : HsStep → Int
  | .done => 0
  | .wantRead => MBEDTLS_ERR_SSL_WANT_READ
  | .wantWrite => MBEDTLS_ERR_SSL_WANT_WRITE
  | .fatal e => e

/-- Modelled from the spec: the handshake loop inside connect (spec sections
4.3 and 5; the body of connect is not under src/).  The stream steps gives
the outcome of the i-th invocation of the engine's handshake-advance
operation; the loop re-invokes it as long as the outcome is one of the two
would-block flavors.  The spec makes the loop unbounded, so the model
examines the first fuel invocations and yields none when every one of them
would-blocked (the loop is still retrying at that horizon), and some r for
the first non-would-block outcome r. -/
def handshakeRun : (Nat → HsStep) → Nat → Option HsStep
  | _, 0 => none
  | steps, fuel + 1 =>
    match steps 0 with
    | .wantRead => handshakeRun (fun i => steps (i + 1)) fuel
    | .wantWrite => handshakeRun (fun i => steps (i + 1)) fuel
    | r => some r

/-- The three PEM members of the TLSSocket class (src/TLSSocket.h lines
165-167): stored references to the caller-provided root CA text, client
certificate text and client private-key text, NULL when unset. -/
structure TLSSocketState where
  ssl_ca_pem : Option String
  ssl_cli_pem : Option String
  ssl_pk_pem : Option String
deriving DecidableEq

/-- The template constructor TLSSocket(S* stack) (src/TLSSocket.h lines
48-53): its initializer list sets all three PEM members to NULL. -/
def mkWithStack : TLSSocketState :=
  { ssl_ca_pem := none, ssl_cli_pem := none, ssl_pk_pem := none }

/-- Modelled from the spec: the body of set_root_ca_cert (declared void at
src/TLSSocket.h line 65) is not under src/.  Per spec section 9 the call
stores a reference to the caller-provided PEM text; parsing happens later,
at connect time. -/
def set_root_ca_cert (st : TLSSocketState) (root_ca_pem : String) : TLSSocketState :=
  { st with ssl_ca_pem := some root_ca_pem }

/-- The value set_root_ca_cert returns to its caller: the function is
declared with return type void (src/TLSSocket.h line 65), so the caller
receives no status. -/
def set_root_ca_cert_ret (_st : TLSSocketState) (_root_ca_pem : String) : Unit := ()

/-- Modelled from the spec: the body of set_client_cert_key (declared void at
src/TLSSocket.h line 72) is not under src/.  Per spec section 9 the call
stores references to the caller-provided client certificate and private-key
PEM text as a pair; parsing happens later, at connect time. -/
def set_client_cert_key (st : TLSSocketState)
    (client_cert_pem : String) (client_private_key_pem : String) : TLSSocketState :=
  { st with ssl_cli_pem := some client_cert_pem, ssl_pk_pem := some client_private_key_pem }

/-- The value set_client_cert_key returns to its caller: the function is
declared with return type void (src/TLSSocket.h line 72), so the caller
receives no status. -/
def set_client_cert_key_ret (_st : TLSSocketState)
    (_client_cert_pem : String) (_client_private_key_pem : String) : Unit := ()

/-- Modelled from the spec: the body of connect(hostname, port) (declared at
src/TLSSocket.h line 86) is not under src/.  Per spec section 4.3 the call
(1) delegates to the transport connect and propagates a transport-level
failure unchanged; (2) configures the engine from the stored PEM material,
parsing the trust store and the optional client identity pair — with no
trust store configured it fails closed with a deterministic negative code
(spec sections 4.3 and 8), and a PEM parse failure yields its fixed negative
code; (3) runs the handshake loop to completion or fatal error.  The
external engine's PEM parser is abstracted as the oracle parseOk, the
transport connect status as transport, and the handshake-step outcomes as
steps with horizon fuel (none = still retrying at the horizon). -/
def connect (parseOk : String → Bool) (st : TLSSocketState) (transport : Int)
    (steps : Nat → HsStep) (fuel : Nat) : Option Int :=
  if transport < 0 then some transport
  else
    match st.ssl_ca_pem with
    | none => some ERR_NO_TRUST_STORE
    | some ca =>
      if parseOk ca then
        match st.ssl_cli_pem, st.ssl_pk_pem with
        | some cli, some pk =>
          if parseOk cli then
            if parseOk pk then Option.map hsResultCode (handshakeRun steps fuel)
            else some ERR_PK_PARSE
          else some ERR_CLI_PARSE
        | _, _ => Option.map hsResultCode (handshakeRun steps fuel)
      else some ERR_CA_PARSE

/-- Modelled from the spec: the configuration step of the convenience
overload connect(hostname, port, root_ca_pem, client_cert_pem, client_pk_pem)
(declared at src/TLSSocket.h lines 103-104, the two client parameters
defaulting to NULL); its body is not under src/.  Per spec section 4.3 the
overload configures the supplied material and then connects: it stores the
inline root CA and, when the client certificate/key pair is supplied,
stores that pair. -/
def overload_config (st : TLSSocketState) (root_ca_pem : String)
    (client_cert_pem client_pk_pem : Option String) : TLSSocketState :=
  match client_cert_pem, client_pk_pem with
  | some cli, some pk => set_client_cert_key (set_root_ca_cert st root_ca_pem) cli pk
  | _, _ => set_root_ca_cert st root_ca_pem

/-- Modelled from the spec: the convenience overload itself — configure from
the inline material, then delegate to connect(hostname, port).  Returns the
configured state together with the status the overload returns. -/
def connect_with_certs (parseOk : String → Bool) (st : TLSSocketState)
    (transport : Int) (root_ca_pem : String)
    (client_cert_pem client_pk_pem : Option String)
    (steps : Nat → HsStep) (fuel : Nat) : TLSSocketState × Option Int :=
  let st1 := overload_config st root_ca_pem client_cert_pem client_pk_pem
  (st1, connect parseOk st1 transport steps fuel)

lemma handshakeRun_terminates (fuel : Nat) :
    ∀ (steps : Nat → HsStep) (r : HsStep), handshakeRun steps fuel = some r →
      (r ≠ HsStep.wantRead ∧ r ≠ HsStep.wantWrite) ∧
      ∃ k, k < fuel ∧
        (∀ j, j < k → steps j = HsStep.wantRead ∨ steps j = HsStep.wantWrite) ∧
        steps k = r := by
  induction fuel with
  | zero =>
    intro steps r h
    simp [handshakeRun] at h
  | succ n ih =>
    intro steps r h
    rw [handshakeRun] at h
    cases hs : steps 0 with
    | wantRead =>
      rw [hs] at h
      obtain ⟨hne, k, hk, hblock, hstep⟩ := ih (fun i => steps (i + 1)) r h
      refine ⟨hne, k + 1, by omega, ?_, hstep⟩
      intro j hj
      cases j with
      | zero => exact Or.inl hs
      | succ j => exact hblock j (by omega)
    | wantWrite =>
      rw [hs] at h
      obtain ⟨hne, k, hk, hblock, hstep⟩ := ih (fun i => steps (i + 1)) r h
      refine ⟨hne, k + 1, by omega, ?_, hstep⟩
      intro j hj
      cases j with
      | zero => exact Or.inr hs
      | succ j => exact hblock j (by omega)
    | done =>
      rw [hs] at h
      simp only [Option.some.injEq] at h
      subst h
      exact ⟨⟨by simp, by simp⟩, 0, by omega, by intro j hj; omega, hs⟩
    | fatal e =>
      rw [hs] at h
      simp only [Option.some.injEq] at h
      subst h
      exact ⟨⟨by simp, by simp⟩, 0, by omega, by intro j hj; omega, hs⟩

/-- C3: whenever the handshake loop inside connect terminates with outcome r,
that outcome is never one of the two would-block flavors — the loop
re-invoked the step at every earlier would-block — and r is the first
non-would-block step outcome; connect then surfaces 0 on completion and the
fatal negative code on failure, so would-block never reaches the caller of
connect. -/
theorem connect_handshake_loop_contract (parseOk : String → Bool) (ca : String)
    (steps : Nat → HsStep) (fuel : Nat) (r : HsStep)
    (h : handshakeRun steps fuel = some r) (hca : parseOk ca = true) :
    (r ≠ HsStep.wantRead ∧ r ≠ HsStep.wantWrite) ∧
    (∃ k, k < fuel ∧
      (∀ j, j < k → steps j = HsStep.wantRead ∨ steps j = HsStep.wantWrite) ∧
      steps k = r) ∧
    connect parseOk { ssl_ca_pem := some ca, ssl_cli_pem := none, ssl_pk_pem := none }
        0 steps fuel = some (hsResultCode r) ∧
    (r = HsStep.done → hsResultCode r = 0) ∧
    (∀ e, r = HsStep.fatal e → hsResultCode r = e) := by
  obtain ⟨hne, hfirst⟩ := handshakeRun_terminates fuel steps r h
  refine ⟨hne, hfirst, ?_, ?_, ?_⟩
  · simp [connect, hca, h]
  · intro hr; subst hr; rfl
  · intro e hr; subst hr; rfl

/-- Witness for C3: a step stream that would-blocks twice (once in each
flavor) and then completes; the loop absorbs both would-blocks and connect
reports success. -/
theorem connect_handshake_loop_contract_witness :
    (HsStep.done ≠ HsStep.wantRead ∧ HsStep.done ≠ HsStep.wantWrite) ∧
    (∃ k, k < 5 ∧
      (∀ j, j < k →
        (fun i => if i = 0 then HsStep.wantRead
          else if i = 1 then HsStep.wantWrite else HsStep.done) j = HsStep.wantRead ∨
        (fun i => if i = 0 then HsStep.wantRead
          else if i = 1 then HsStep.wantWrite else HsStep.done) j = HsStep.wantWrite) ∧
      (fun i => if i = 0 then HsStep.wantRead
        else if i = 1 then HsStep.wantWrite else HsStep.done) k = HsStep.done) ∧
    connect (fun _ => true)
        { ssl_ca_pem := some "ROOT-CA", ssl_cli_pem := none, ssl_pk_pem := none } 0
        (fun i => if i = 0 then HsStep.wantRead
          else if i = 1 then HsStep.wantWrite else HsStep.done) 5 =
      some (hsResultCode HsStep.done) ∧
    (HsStep.done = HsStep.done → hsResultCode HsStep.done = 0) ∧
    (∀ e, HsStep.done = HsStep.fatal e → hsResultCode HsStep.done = e) :=
  connect_handshake_loop_contract (fun _ => true) "ROOT-CA"
    (fun i => if i = 0 then HsStep.wantRead
      else if i = 1 then HsStep.wantWrite else HsStep.done) 5 HsStep.done rfl rfl

/-- C4: connect with no trust store configured and none supplied inline
(the stored root CA member is NULL) fails closed: it returns the fixed
negative no-trust-store code — the same code for every parser oracle,
handshake outcome stream and horizon, hence deterministically — and in
particular never returns success with verification silently bypassed. -/
theorem connect_fail_closed_without_trust_store (parseOk : String → Bool)
    (st : TLSSocketState) (transport : Int) (steps : Nat → HsStep) (fuel : Nat)
    (hca : st.ssl_ca_pem = none) (ht : 0 ≤ transport) :
    connect parseOk st transport steps fuel = some ERR_NO_TRUST_STORE ∧
    ERR_NO_TRUST_STORE < 0 ∧
    connect parseOk st transport steps fuel ≠ some 0 := by
  have hnl : ¬ transport < 0 := by omega
  have hmain : connect parseOk st transport steps fuel = some ERR_NO_TRUST_STORE := by
    simp [connect, hnl, hca]
  refine ⟨hmain, by decide, ?_⟩
  rw [hmain]
  simp [ERR_NO_TRUST_STORE]

/-- Witness for C4: a freshly constructed socket (no material configured),
a succeeded transport connect, an always-accepting parser and an
immediately-completing handshake stream still yield the no-trust-store
failure. -/
theorem connect_fail_closed_without_trust_store_witness :
    connect (fun _ => true) mkWithStack 0 (fun _ => HsStep.done) 1 =
      some ERR_NO_TRUST_STORE ∧
    ERR_NO_TRUST_STORE < 0 ∧
    connect (fun _ => true) mkWithStack 0 (fun _ => HsStep.done) 1 ≠ some 0 :=
  connect_fail_closed_without_trust_store (fun _ => true) mkWithStack 0
    (fun _ => HsStep.done) 1 rfl (by decide)

/-- C5: after set_root_ca_cert stored a root CA text that the engine's PEM
parser rejects, every subsequent connect returns the fixed negative CA-parse
code — the same code for every handshake outcome stream and horizon, hence
reproducible, distinct from success and from the no-trust-store code — and
never succeeds as if the trust store were empty; the failure is an error
return of the total function connect, not a crash. -/
theorem connect_fails_on_malformed_root_ca (parseOk : String → Bool)
    (st : TLSSocketState) (root_ca_pem : String) (transport : Int)
    (steps : Nat → HsStep) (fuel : Nat)
    (hbad : parseOk root_ca_pem = false) (ht : 0 ≤ transport) :
    connect parseOk (set_root_ca_cert st root_ca_pem) transport steps fuel =
      some ERR_CA_PARSE ∧
    ERR_CA_PARSE < 0 ∧ ERR_CA_PARSE ≠ 0 ∧ ERR_CA_PARSE ≠ ERR_NO_TRUST_STORE ∧
    connect parseOk (set_root_ca_cert st root_ca_pem) transport steps fuel ≠
      some 0 := by
  have hnl : ¬ transport < 0 := by omega
  have hmain : connect parseOk (set_root_ca_cert st root_ca_pem) transport steps fuel =
      some ERR_CA_PARSE := by
    simp [connect, set_root_ca_cert, hnl, hbad]
  refine ⟨hmain, by decide, by decide, by decide, ?_⟩
  rw [hmain]
  simp [ERR_CA_PARSE]

/-- Witness for C5: a parser rejecting the stored text "not a pem" makes the
subsequent connect fail with the CA-parse code for two different handshake
streams and horizons (reproducibility at concrete inputs). -/
theorem connect_fails_on_malformed_root_ca_witness :
    connect (fun _ => false) (set_root_ca_cert mkWithStack "not a pem") 0
        (fun _ => HsStep.done) 1 = some ERR_CA_PARSE ∧
    connect (fun _ => false) (set_root_ca_cert mkWithStack "not a pem") 3
        (fun _ => HsStep.wantRead) 7 = some ERR_CA_PARSE :=
  ⟨(connect_fails_on_malformed_root_ca (fun _ => false) mkWithStack "not a pem" 0
      (fun _ => HsStep.done) 1 rfl (by decide)).1,
    (connect_fails_on_malformed_root_ca (fun _ => false) mkWithStack "not a pem" 3
      (fun _ => HsStep.wantRead) 7 rfl (by decide)).1⟩

/-- C6 counterexample: set_root_ca_cert is declared with return type void
(src/TLSSocket.h line 65), so the configuring call cannot report a parse
error to its caller.  Concretely, with a parser that accepts only
"GOOD-PEM", passing the malformed text "not a pem" returns to the caller
exactly the same (empty) value as passing the well-formed text, the
malformed text is stored unvalidated, and the parse error is reported only
later, by the returned status of connect. -/
theorem set_root_ca_cert_reports_nothing :
    (fun s => decide (s = "GOOD-PEM")) "not a pem" = false ∧
    set_root_ca_cert_ret mkWithStack "not a pem" =
      set_root_ca_cert_ret mkWithStack "GOOD-PEM" ∧
    (set_root_ca_cert mkWithStack "not a pem").ssl_ca_pem = some "not a pem" ∧
    connect (fun s => decide (s = "GOOD-PEM"))
        (set_root_ca_cert mkWithStack "not a pem") 0 (fun _ => HsStep.done) 1 =
      some ERR_CA_PARSE := by
  refine ⟨by decide, rfl, rfl, by decide⟩

/-- C6 as amended: the configuring calls set_root_ca_cert and
set_client_cert_key return void — the caller receives no status from them —
and a parse error in the configured material is reported in the returned
status of connect; for the combined convenience overload, in that call's
returned status (shown here for a client-certificate parse failure). -/
theorem parse_errors_surface_in_connect_status (parseOk : String → Bool)
    (st : TLSSocketState) (root_ca cli pk : String) (transport : Int)
    (steps : Nat → HsStep) (fuel : Nat)
    (hca : parseOk root_ca = true) (hbad : parseOk cli = false)
    (ht : 0 ≤ transport) :
    set_root_ca_cert_ret st root_ca = () ∧
    set_client_cert_key_ret st cli pk = () ∧
    (connect_with_certs parseOk st transport root_ca (some cli) (some pk)
        steps fuel).2 = some ERR_CLI_PARSE ∧
    ERR_CLI_PARSE < 0 := by
  have hnl : ¬ transport < 0 := by omega
  refine ⟨rfl, rfl, ?_, by decide⟩
  simp [connect_with_certs, overload_config, connect, set_root_ca_cert,
    set_client_cert_key, hnl, hca, hbad]

/-- Witness for C6 as amended: a parser accepting "CA" and rejecting
"BAD-CLIENT-CERT" makes the convenience overload report the client parse
failure in its returned status, while the setters return nothing. -/
theorem parse_errors_surface_in_connect_status_witness :
    set_root_ca_cert_ret mkWithStack "CA" = () ∧
    set_client_cert_key_ret mkWithStack "BAD-CLIENT-CERT" "KEY" = () ∧
    (connect_with_certs (fun s => decide (s = "CA" ∨ s = "KEY")) mkWithStack 0
        "CA" (some "BAD-CLIENT-CERT") (some "KEY") (fun _ => HsStep.done) 1).2 =
      some ERR_CLI_PARSE ∧
    ERR_CLI_PARSE < 0 :=
  parse_errors_surface_in_connect_status (fun s => decide (s = "CA" ∨ s = "KEY"))
    mkWithStack "CA" "BAD-CLIENT-CERT" "KEY" 0 (fun _ => HsStep.done) 1
    (by decide) (by decide) (by decide)

/-- C9: certificate material configured via set_root_ca_cert and
set_client_cert_key is exactly the material connect draws on (connect on
the configured state equals connect on a state holding just that material),
and the convenience overload installs the inline material for its own
connect regardless of what was configured before, so inline material
overrides separately configured material for that call. -/
theorem cert_config_takes_effect_and_inline_overrides (parseOk : String → Bool)
    (st : TLSSocketState) (root_ca cli pk : String) (transport : Int)
    (steps : Nat → HsStep) (fuel : Nat) :
    (set_root_ca_cert st root_ca).ssl_ca_pem = some root_ca ∧
    (set_client_cert_key st cli pk).ssl_cli_pem = some cli ∧
    (set_client_cert_key st cli pk).ssl_pk_pem = some pk ∧
    connect parseOk (set_client_cert_key (set_root_ca_cert st root_ca) cli pk)
        transport steps fuel =
      connect parseOk
        { ssl_ca_pem := some root_ca, ssl_cli_pem := some cli,
          ssl_pk_pem := some pk } transport steps fuel ∧
    (connect_with_certs parseOk st transport root_ca (some cli) (some pk)
        steps fuel).1 =
      { ssl_ca_pem := some root_ca, ssl_cli_pem := some cli,
        ssl_pk_pem := some pk } ∧
    (connect_with_certs parseOk st transport root_ca (some cli) (some pk)
        steps fuel).2 =
      connect parseOk
        { ssl_ca_pem := some root_ca, ssl_cli_pem := some cli,
          ssl_pk_pem := some pk } transport steps fuel :=
  ⟨rfl, rfl, rfl, rfl, rfl, rfl⟩

/-- C10: the template constructor leaves all three PEM members NULL — a
fresh socket has no root CA and no client identity — and the convenience
overload called with only a root CA (its client parameters at their NULL
defaults) configures the root CA but still no client identity. -/
theorem fresh_socket_unconfigured (parseOk : String → Bool) (root_ca : String)
    (transport : Int) (steps : Nat → HsStep) (fuel : Nat) :
    mkWithStack.ssl_ca_pem = none ∧
    mkWithStack.ssl_cli_pem = none ∧
    mkWithStack.ssl_pk_pem = none ∧
    (connect_with_certs parseOk mkWithStack transport root_ca none none
        steps fuel).1 =
      { ssl_ca_pem := some root_ca, ssl_cli_pem := none, ssl_pk_pem := none } :=
  ⟨rfl, rfl, rfl, rfl⟩

/-- Session states of one Session Manager instance (spec section 3). -/
inductive SessionState where
  | uninitialized
  | configured
  | handshaking
  | established
  | error
deriving DecidableEq

/-- Allocation map of the crypto context owned by a TLSSocket instance: one
flag per sub-resource pointer member (src/TLSSocket.h lines 169-175), true
while the sub-resource is allocated. -/
structure CryptoCtx where
  entropy : Bool
  ctr_drbg : Bool
  cacert : Bool
  clicert : Bool
  pkctx : Bool
  ssl : Bool
  ssl_conf : Bool
deriving DecidableEq

/-- Release one crypto sub-resource handle: a free operation is performed
only when the handle is currently allocated, and the handle is marked
released.  The second component counts the free operations performed (0 or
1), so a double free would show up as an extra performed operation. -/
def releaseOne (allocated : Bool) : Bool × Nat :=
  (false, cond allocated 1 0)

/-- Number of currently allocated sub-resources of a crypto context. -/
def CryptoCtx.allocCount (c : CryptoCtx) : Nat :=
  cond c.entropy 1 0 + cond c.ctr_drbg 1 0 + cond c.cacert 1 0 +
    cond c.clicert 1 0 + cond c.pkctx 1 0 + cond c.ssl 1 0 + cond c.ssl_conf 1 0

/-- Modelled from the spec: the body of tls_free (declared at src/TLSSocket.h
line 180) is not under src/.  Per spec sections 3, 4.1 and 5, teardown
releases each currently allocated sub-resource of the crypto context —
entropy source, DRBG, CA chain, client certificate, private key, session,
configuration — exactly once, is safe on a context that was never fully
populated, and is idempotent.  Returns the torn-down context together with
the total number of free operations performed. -/
def tls_free (c : CryptoCtx) : CryptoCtx × Nat :=
  let e := releaseOne c.entropy
  let d := releaseOne c.ctr_drbg
  let ca := releaseOne c.cacert
  let cl := releaseOne c.clicert
  let pk := releaseOne c.pkctx
  let s := releaseOne c.ssl
  let cf := releaseOne c.ssl_conf
  (⟨e.1, d.1, ca.1, cl.1, pk.1, s.1, cf.1⟩,
    e.2 + d.2 + ca.2 + cl.2 + pk.2 + s.2 + cf.2)

/-- Modelled from the spec: the destructor (src/TLSSocket.h line 59, body
not under src/) tears the crypto context down via tls_free, whatever session
state the instance is destroyed in. -/
def destructorFree (_s : SessionState) (c : CryptoCtx) : CryptoCtx × Nat :=
  tls_free c

/-- C8: destroying an instance in any session state performs exactly one
free operation per allocated sub-resource (no leak, no double free), leaves
nothing allocated, a second teardown performs zero free operations
(idempotence), and teardown of a never-populated context performs zero free
operations without failing (teardown is a total function). -/
theorem teardown_exactly_once (s : SessionState) (c : CryptoCtx) :
    (destructorFree s c).2 = c.allocCount ∧
    ((destructorFree s c).1).allocCount = 0 ∧
    (tls_free (destructorFree s c).1).2 = 0 ∧
    destructorFree s ⟨false, false, false, false, false, false, false⟩ =
      (⟨false, false, false, false, false, false, false⟩, 0) :=
  ⟨rfl, rfl, rfl, rfl⟩

end TLSSocketModel
